import Mathlib

/-!
Verification of the redirect-resolution core of the `reqwest` HTTP client
(src/redirect.rs, src/client.rs, src/error.rs), as a shallow embedding.

URLs are modelled as strings (the URL collaborator's equality and string
round-trip are what the core uses); URL joining and the transport are
external collaborators and appear as function parameters of the engine.
-/

namespace Reqwest

/-- HTTP methods (hyper `Method`, an external enum over the standard verbs). -/
inductive Method
  | Options
  | Get
  | Post
  | Put
  | Delete
  | Head
  | Trace
  | Connect
  | Patch
  | Extension (s : String)
deriving DecidableEq

/-- URLs, modelled by their string form. -/
abbrev Url := String

/-- Modelled from the spec: the header collection (hyper `Headers`, an external
collaborator not under src/) is an ordered multimap with case-insensitive keys,
insertion order preserved for same-key duplicates. -/
abbrev Headers := List (String × String)

/-- ASCII lower-casing of one character. -/
def charLower (c : Char) : Char :=
  if 65 ≤ c.toNat ∧ c.toNat ≤ 90 then Char.ofNat (c.toNat + 32) else c

/-- Case-insensitive header-name comparison. -/
def headerNameEq (a b : String) : Bool :=
  a.data.map charLower == b.data.map charLower

/-- Whether a header with the given name is present. -/
def Headers.has (hs : Headers) (name : String) : Bool :=
  hs.any (fun p => headerNameEq p.1 name)

/-- Modelled from the spec: setting a header on the ordered multimap appends;
later calls for the same key do not remove earlier values. -/
def Headers.set (hs : Headers) (name value : String) : Headers :=
  hs ++ [(name, value)]

/-- Modelled from the spec: merging a header collection appends all entries. -/
def Headers.extend (hs other : Headers) : Headers := hs ++ other

/-- First value stored under the given name, if any. -/
def Headers.get (hs : Headers) (name : String) : Option String :=
  (hs.find? (fun p => headerNameEq p.1 name)).map Prod.snd

/-- redirect.rs `Action`: an action to perform when a redirect status is found. -/
inductive Action
  | Follow
  | Stop
  | LoopDetected
  | TooManyRedirects
deriving DecidableEq

/-- redirect.rs `Policy`: the built-in and custom redirect policy variants. -/
inductive Policy
  | Custom (f : Url → List Url → Action)
  | Limit (max : Nat)
  | None

/-- redirect.rs `RedirectPolicy::redirect`: decide an action from the candidate
URL and the previously visited URLs. -/
def RedirectPolicy.redirect (p : Policy) (next : Url) (previous : List Url) : Action :=
  match p with
  | Policy.Custom f => f next previous
  | Policy.Limit max =>
      if previous.length == max then
        Action.TooManyRedirects
      else if previous.contains next then
        Action.LoopDetected
      else
        Action.Follow
  | Policy.None => Action.Stop

/-- redirect.rs `Default for RedirectPolicy`: `limited(10)`. -/
def RedirectPolicy.default : Policy := Policy.Limit 10

/-- redirect.rs `check_redirect`. -/
def check_redirect (p : Policy) (next : Url) (previous : List Url) : Action :=
  RedirectPolicy.redirect p next previous

/-- error.rs `Kind`: the error classification. External error payloads are
modelled by their message strings. -/
inductive ErrorKind
  | Http (e : String)
  | UrlEncoded (e : String)
  | Json (e : String)
  | TooManyRedirects
  | RedirectLoop
deriving DecidableEq

/-- error.rs `Error`: a kind plus an optional URL in flight. -/
structure Error where
  kind : ErrorKind
  url : Option Url
deriving DecidableEq

/-- error.rs `from`: wrap a kind with no URL attached. -/
def error.from' (k : ErrorKind) : Error := ⟨k, Option.none⟩

/-- error.rs `loop_detected`. -/
def error.loop_detected (url : Url) : Error := ⟨ErrorKind.RedirectLoop, some url⟩

/-- error.rs `too_many_redirects`. -/
def error.too_many_redirects (url : Url) : Error := ⟨ErrorKind.TooManyRedirects, some url⟩

/-- Modelled from the spec: body.rs is not under src/; a body is either an
in-memory buffer (deterministically re-producible) or a single-pass stream. -/
inductive Body
  | buffer (data : String)
  | stream (data : String)
deriving DecidableEq

/-- Modelled from the spec: body.rs `can_reset` — an in-memory buffer is
resettable, a single-pass stream is not. -/
def body.can_reset : Body → Bool
  | Body.buffer _ => true
  | Body.stream _ => false

/-- The transport collaborator's successful answer: status code, response
headers, and the final URL actually fetched. -/
structure HttpResponse where
  status : Nat
  headers : Headers
  url : Url
deriving DecidableEq

/-- client.rs lines 269–291: classify the response status inside `send`,
computing `should_redirect` together with the (possibly mutated) method and
body for the next hop. -/
def classifyStatus (method : Method) (bodyOpt : Option Body) (status : Nat) :
    Bool × Method × Option Body :=
  if status == 301 || status == 302 || status == 303 then
    (true,
      (match method with
        | Method.Get | Method.Head => method
        | _ => Method.Get),
      Option.none)
  else if status == 307 || status == 308 then
    ((match bodyOpt with
       | some b => body.can_reset b
       | Option.none => true),
      method, bodyOpt)
  else
    (false, method, bodyOpt)

/-- The redirect-chain state local to one `send` call. -/
structure SendState where
  method : Method
  url : Url
  headers : Headers
  body : Option Body
  urls : List Url
deriving DecidableEq

/-- Outcome of one iteration of the redirect loop. -/
inductive StepOutcome
  | next (st : SendState)
  | done (res : HttpResponse)
  | fail (e : Error)
deriving DecidableEq

/-- client.rs lines 269–335: one iteration of the redirect loop of `send`,
after the transport returned `res`. `join` is the URL collaborator's join. -/
def sendStep (policy : Policy) (join : Url → String → Option Url)
    (st : SendState) (res : HttpResponse) : StepOutcome :=
  match classifyStatus st.method st.body res.status with
  | (false, _, _) => StepOutcome.done res
  | (true, method, bodyNew) =>
    match Headers.get res.headers "Location" with
    | Option.none => StepOutcome.done res
    | some locStr =>
      match join st.url locStr with
      | Option.none => StepOutcome.done res
      | some loc =>
        match check_redirect policy loc (st.urls ++ [st.url]) with
        | Action.Follow =>
            StepOutcome.next
              ⟨method, loc, Headers.set st.headers "Referer" st.url, bodyNew,
                st.urls ++ [st.url]⟩
        | Action.Stop => StepOutcome.done res
        | Action.LoopDetected => StepOutcome.fail (error.loop_detected res.url)
        | Action.TooManyRedirects => StepOutcome.fail (error.too_many_redirects res.url)

/-- client.rs lines 254–336: the redirect loop of `send`. The transport
collaborator receives method, URL, headers and optional body per hop; `none`
means the fuel bound was exhausted before the loop terminated. -/
def redirectLoop (policy : Policy) (join : Url → String → Option Url)
    (transport : Method → Url → Headers → Option Body → Except String HttpResponse) :
    Nat → SendState → Option (Except Error HttpResponse)
  | 0, _ => Option.none
  | Nat.succ fuel, st =>
    match transport st.method st.url st.headers st.body with
    | Except.error e => some (Except.error ⟨ErrorKind.Http e, some st.url⟩)
    | Except.ok res =>
      match sendStep policy join st res with
      | StepOutcome.next st2 => redirectLoop policy join transport fuel st2
      | StepOutcome.done r => some (Except.ok r)
      | StepOutcome.fail e => some (Except.error e)

/-- client.rs `RequestBuilder`: method, fallible URL, headers, and an optional
fallible body slot. -/
structure RequestBuilder where
  method : Method
  url : Except String Url
  headers : Headers
  body : Option (Except Error Body)

/-- client.rs `RequestBuilder::header`: set one header. -/
def RequestBuilder.header (rb : RequestBuilder) (name value : String) : RequestBuilder :=
  { rb with headers := Headers.set rb.headers name value }

/-- client.rs `RequestBuilder::headers`: merge a collection into the existing
headers. -/
def RequestBuilder.addHeaders (rb : RequestBuilder) (hs : Headers) : RequestBuilder :=
  { rb with headers := Headers.extend rb.headers hs }

/-- client.rs `RequestBuilder::body`: store an infallible body. -/
def RequestBuilder.setBody (rb : RequestBuilder) (b : Body) : RequestBuilder :=
  { rb with body := some (Except.ok b) }

/-- client.rs `RequestBuilder::form`: `encoded` is the URL-encoding
collaborator's fallible output for the passed value; its error is wrapped via
`error::from` and deferred into the body slot, and the Content-Type header is
set. -/
def RequestBuilder.form (rb : RequestBuilder) (encoded : Except String String) :
    RequestBuilder :=
  { rb with
      headers := Headers.set rb.headers "Content-Type" "application/x-www-form-urlencoded",
      body := some ((encoded.mapError
        (fun e => error.from' (ErrorKind.UrlEncoded e))).map Body.buffer) }

/-- client.rs: the default User-Agent value. -/
def DEFAULT_USER_AGENT : String := "reqwest"

/-- client.rs lines 230–337: `RequestBuilder::send` — finalize default headers,
surface deferred URL and body errors, then run the redirect loop. -/
def RequestBuilder.send (rb : RequestBuilder) (auto_ungzip : Bool) (policy : Policy)
    (join : Url → String → Option Url)
    (transport : Method → Url → Headers → Option Body → Except String HttpResponse)
    (fuel : Nat) : Option (Except Error HttpResponse) :=
  let headers0 :=
    if Headers.has rb.headers "User-Agent" then rb.headers
    else Headers.set rb.headers "User-Agent" DEFAULT_USER_AGENT
  let headers1 :=
    if Headers.has headers0 "Accept" then headers0
    else Headers.set headers0 "Accept" "*/*"
  let headers2 :=
    if auto_ungzip && !(Headers.has headers1 "Accept-Encoding")
        && !(Headers.has headers1 "Range") then
      Headers.set headers1 "Accept-Encoding" "gzip"
    else headers1
  match rb.url with
  | Except.error e => some (Except.error ⟨ErrorKind.Http e, Option.none⟩)
  | Except.ok url =>
    match rb.body with
    | some (Except.error e) => some (Except.error e)
    | some (Except.ok b) =>
        redirectLoop policy join transport fuel ⟨rb.method, url, headers2, some b, []⟩
    | Option.none =>
        redirectLoop policy join transport fuel ⟨rb.method, url, headers2, Option.none, []⟩

deriving instance DecidableEq for Except

/-- A trivial URL-join collaborator that accepts every Location value as an
absolute URL, used for concrete runs. -/
def joinAll : Url → String → Option Url := fun _ l => some l

/-- A URL-join collaborator that rejects every Location value, used for
concrete runs exercising unusable Location targets. -/
def joinFail : Url → String → Option Url := fun _ _ => Option.none

/-- Successor table of an 11-redirect server chain u0 → u1 → ... → u11. -/
def chainPairs : List (Url × Url) :=
  [("u0", "u1"), ("u1", "u2"), ("u2", "u3"), ("u3", "u4"), ("u4", "u5"),
   ("u5", "u6"), ("u6", "u7"), ("u7", "u8"), ("u8", "u9"), ("u9", "u10"),
   ("u10", "u11")]

/-- Next URL of the chain. -/
def nextUrlOf (u : Url) : Url := (List.lookup u chainPairs).getD "u99"

/-- A transport serving the 11-redirect chain: every request is answered with
status 302, a Location header pointing at the next chain URL, and the request
URL reported as fetched. -/
def chainTransport : Method → Url → Headers → Option Body → Except String HttpResponse :=
  fun _ u _ _ => Except.ok ⟨302, [("Location", nextUrlOf u)], u⟩

/-- Initial redirect-chain state of a GET to u0. -/
def chainSt0 : SendState := ⟨Method.Get, "u0", [], Option.none, []⟩

/-- Concrete 307 response fixture. -/
def w3res : HttpResponse := ⟨307, [("Location", "u1")], "u0"⟩

/-- A transport answering every request with `w3res`. -/
def w3transport : Method → Url → Headers → Option Body → Except String HttpResponse :=
  fun _ _ _ _ => Except.ok w3res

/-- Concrete state carrying a non-resettable stream body. -/
def w3st : SendState := ⟨Method.Post, "u0", [], some (Body.stream "s"), []⟩

/-- Concrete state for redirect-decision fixtures. -/
def w4st : SendState := ⟨Method.Get, "u0", [("accept", "x")], Option.none, []⟩

/-- Concrete 302 response fixture with a usable Location. -/
def w4res : HttpResponse := ⟨302, [("Location", "u1")], "u0"⟩

/-- Concrete state for unusable-Location fixtures. -/
def w5st : SendState := ⟨Method.Get, "u0", [], Option.none, []⟩

/-- A 301 response with no Location header. -/
def w5res : HttpResponse := ⟨301, [], "u0"⟩

/-- A 301 response whose Location will fail to join. -/
def w5resBad : HttpResponse := ⟨301, [("Location", "::bad::")], "u0"⟩

/-- A transport answering every request with `w5res`. -/
def w5tr : Method → Url → Headers → Option Body → Except String HttpResponse :=
  fun _ _ _ _ => Except.ok w5res

/-- A transport answering every request with `w5resBad`. -/
def w5trBad : Method → Url → Headers → Option Body → Except String HttpResponse :=
  fun _ _ _ _ => Except.ok w5resBad

/-- Concrete state for the Referer fixture. -/
def w8st : SendState := ⟨Method.Get, "u0", [("accept", "x")], Option.none, []⟩

/-- Concrete request builder fixture. -/
def rb9 : RequestBuilder := ⟨Method.Post, Except.ok "u0", [], Option.none⟩

/-- A transport that always fails; deferred body errors must surface before it
is ever consulted. -/
def noTransport : Method → Url → Headers → Option Body → Except String HttpResponse :=
  fun _ _ _ _ => Except.error "unreachable"

/-- C1: for the built-in policy `Limit(max)`, `decide` returns
`TooManyRedirects` whenever the history has length exactly `max`; otherwise it
returns `LoopDetected` when the candidate URL occurs in the history, and
`Follow` otherwise; the limit check precedes the loop check, so `Limit(0)` on
an empty history returns `TooManyRedirects` for every candidate URL. -/
theorem C1_limit_policy (m : Nat) (next : Url) (previous : List Url) :
    (previous.length = m →
      check_redirect (Policy.Limit m) next previous = Action.TooManyRedirects) ∧
    (previous.length ≠ m → previous.contains next = true →
      check_redirect (Policy.Limit m) next previous = Action.LoopDetected) ∧
    (previous.length ≠ m → previous.contains next = false →
      check_redirect (Policy.Limit m) next previous = Action.Follow) ∧
    check_redirect (Policy.Limit 0) next [] = Action.TooManyRedirects := by
  refine ⟨fun h => ?_, fun h hc => ?_, fun h hc => ?_, ?_⟩
  · simp [check_redirect, RedirectPolicy.redirect, h]
  · simp [check_redirect, RedirectPolicy.redirect, h]
    simpa using hc
  · simp [check_redirect, RedirectPolicy.redirect, h]
    simpa using hc
  · simp [check_redirect, RedirectPolicy.redirect]

/-- Witness for C1 at concrete inputs. -/
theorem C1_limit_policy_witness :
    check_redirect (Policy.Limit 2) "u9" ["u0", "u1"] = Action.TooManyRedirects ∧
    check_redirect (Policy.Limit 5) "u0" ["u0", "u1"] = Action.LoopDetected ∧
    check_redirect (Policy.Limit 5) "u9" ["u0", "u1"] = Action.Follow :=
  ⟨(C1_limit_policy 2 "u9" ["u0", "u1"]).1 (by decide),
   (C1_limit_policy 5 "u0" ["u0", "u1"]).2.1 (by decide) (by decide),
   (C1_limit_policy 5 "u9" ["u0", "u1"]).2.2.1 (by decide) (by decide)⟩

/-- C10: the limit check of `Limit(n)` is a strict equality test, not a
threshold: on every history strictly longer than `n` with a novel candidate,
`decide` returns `Follow` rather than `TooManyRedirects`. -/
theorem C10_limit_strict_equality (n : Nat) (next : Url) (previous : List Url)
    (hlen : n < previous.length) (hc : previous.contains next = false) :
    check_redirect (Policy.Limit n) next previous = Action.Follow := by
  have h : previous.length ≠ n := by omega
  simp [check_redirect, RedirectPolicy.redirect, h]
  simpa using hc

/-- Witness for C10 at a concrete input. -/
theorem C10_limit_strict_equality_witness :
    check_redirect (Policy.Limit 1) "u9" ["u0", "u1"] = Action.Follow :=
  C10_limit_strict_equality 1 "u9" ["u0", "u1"] (by decide) (by decide)

/-- C2: for status 301, 302 or 303 the redirect classification is
unconditional: the pending body is discarded regardless of its prior value and
the method is rewritten to GET unless it is already GET or HEAD, which are
left unchanged. -/
theorem C2_method_rewrite (method : Method) (bodyOpt : Option Body) (status : Nat)
    (h : status = 301 ∨ status = 302 ∨ status = 303) :
    classifyStatus method bodyOpt status =
      (true,
        (if method = Method.Get ∨ method = Method.Head then method else Method.Get),
        Option.none) := by
  rcases h with h | h | h <;> subst h <;> cases method <;> simp [classifyStatus]

/-- Witness for C2 at concrete inputs. -/
theorem C2_method_rewrite_witness :
    classifyStatus Method.Post (some (Body.buffer "x")) 302 =
      (true,
        (if Method.Post = Method.Get ∨ Method.Post = Method.Head then Method.Post
          else Method.Get),
        Option.none) ∧
    classifyStatus Method.Head (some (Body.stream "y")) 301 =
      (true,
        (if Method.Head = Method.Get ∨ Method.Head = Method.Head then Method.Head
          else Method.Get),
        Option.none) :=
  ⟨C2_method_rewrite Method.Post (some (Body.buffer "x")) 302 (Or.inr (Or.inl rfl)),
   C2_method_rewrite Method.Head (some (Body.stream "y")) 301 (Or.inl rfl)⟩

/-- C3: for a 307 or 308 response, a present non-resettable body makes `send`
terminate successfully with that response (the redirect is not followed and no
error is produced); with no body, or a resettable one, the redirect proceeds
with method and body preserved unchanged. -/
theorem C3_resettability (policy : Policy) (join : Url → String → Option Url)
    (transport : Method → Url → Headers → Option Body → Except String HttpResponse)
    (fuel : Nat) (st : SendState) (res : HttpResponse) (b : Body)
    (hstatus : res.status = 307 ∨ res.status = 308) :
    (st.body = some b → body.can_reset b = false →
      transport st.method st.url st.headers st.body = Except.ok res →
      redirectLoop policy join transport (fuel + 1) st = some (Except.ok res)) ∧
    ((st.body = Option.none ∨ (st.body = some b ∧ body.can_reset b = true)) →
      classifyStatus st.method st.body res.status = (true, st.method, st.body)) := by
  constructor
  · intro hb hreset htr
    have hclass : classifyStatus st.method st.body res.status = (false, st.method, st.body) := by
      rcases hstatus with h | h <;> simp [classifyStatus, h, hb, hreset]
    simp [redirectLoop, htr, sendStep, hclass]
  · intro hcase
    rcases hstatus with h | h <;>
      rcases hcase with hb | ⟨hb, hreset⟩ <;>
        simp_all [classifyStatus]

/-- Witness for C3 at concrete inputs: a POST with a stream body hitting a 307
terminates with that response, while a buffer body keeps method and body. -/
theorem C3_resettability_witness :
    redirectLoop (Policy.Limit 10) joinAll w3transport 1 w3st = some (Except.ok w3res) ∧
    classifyStatus Method.Post (some (Body.buffer "s")) 307 =
      (true, Method.Post, some (Body.buffer "s")) :=
  ⟨(C3_resettability (Policy.Limit 10) joinAll w3transport 0 w3st w3res (Body.stream "s")
      (Or.inl rfl)).1 rfl rfl rfl,
   (C3_resettability (Policy.Limit 10) joinAll w3transport 0
      ⟨Method.Post, "u0", [], some (Body.buffer "s"), []⟩ w3res (Body.buffer "s")
      (Or.inl rfl)).2 (Or.inr ⟨rfl, rfl⟩)⟩

/-- C4: when the policy is consulted on a hop (redirect classification holds
and the Location target resolved), each action maps to exactly one outcome:
Follow adopts the candidate URL and re-enters sending; Stop terminates with
the current response; LoopDetected fails with a RedirectLoop error carrying
the response's own reported URL; TooManyRedirects fails analogously. -/
theorem C4_policy_outcomes (policy : Policy) (join : Url → String → Option Url)
    (st : SendState) (res : HttpResponse) (m2 : Method) (b2 : Option Body)
    (locStr : String) (loc : Url)
    (hclass : classifyStatus st.method st.body res.status = (true, m2, b2))
    (hloc : Headers.get res.headers "Location" = some locStr)
    (hjoin : join st.url locStr = some loc) :
    (check_redirect policy loc (st.urls ++ [st.url]) = Action.Follow →
      sendStep policy join st res =
        StepOutcome.next
          ⟨m2, loc, Headers.set st.headers "Referer" st.url, b2, st.urls ++ [st.url]⟩) ∧
    (check_redirect policy loc (st.urls ++ [st.url]) = Action.Stop →
      sendStep policy join st res = StepOutcome.done res) ∧
    (check_redirect policy loc (st.urls ++ [st.url]) = Action.LoopDetected →
      sendStep policy join st res = StepOutcome.fail (error.loop_detected res.url)) ∧
    (check_redirect policy loc (st.urls ++ [st.url]) = Action.TooManyRedirects →
      sendStep policy join st res = StepOutcome.fail (error.too_many_redirects res.url)) := by
  refine ⟨fun ha => ?_, fun ha => ?_, fun ha => ?_, fun ha => ?_⟩ <;>
    simp [sendStep, hclass, hloc, hjoin, ha]

/-- Witness for C4: all four policy actions exercised on a concrete 302 hop. -/
theorem C4_policy_outcomes_witness :
    (sendStep (Policy.Limit 10) joinAll w4st w4res =
      StepOutcome.next
        ⟨Method.Get, "u1", Headers.set w4st.headers "Referer" "u0", Option.none, ["u0"]⟩) ∧
    (sendStep Policy.None joinAll w4st w4res = StepOutcome.done w4res) ∧
    (sendStep (Policy.Custom fun _ _ => Action.LoopDetected) joinAll w4st w4res =
      StepOutcome.fail (error.loop_detected "u0")) ∧
    (sendStep (Policy.Custom fun _ _ => Action.TooManyRedirects) joinAll w4st w4res =
      StepOutcome.fail (error.too_many_redirects "u0")) :=
  ⟨(C4_policy_outcomes (Policy.Limit 10) joinAll w4st w4res Method.Get Option.none
      "u1" "u1" rfl (by decide) rfl).1 (by decide),
   (C4_policy_outcomes Policy.None joinAll w4st w4res Method.Get Option.none
      "u1" "u1" rfl (by decide) rfl).2.1 rfl,
   (C4_policy_outcomes (Policy.Custom fun _ _ => Action.LoopDetected) joinAll w4st w4res
      Method.Get Option.none "u1" "u1" rfl (by decide) rfl).2.2.1 rfl,
   (C4_policy_outcomes (Policy.Custom fun _ _ => Action.TooManyRedirects) joinAll w4st w4res
      Method.Get Option.none "u1" "u1" rfl (by decide) rfl).2.2.2 rfl⟩

/-- C5: a redirect-status response with no Location header, or whose Location
fails to parse or join against the current URL, makes `send` terminate
successfully with that original response, never with an error. -/
theorem C5_unusable_location (policy : Policy) (join : Url → String → Option Url)
    (transport : Method → Url → Headers → Option Body → Except String HttpResponse)
    (fuel : Nat) (st : SendState) (res : HttpResponse) (m2 : Method) (b2 : Option Body)
    (hclass : classifyStatus st.method st.body res.status = (true, m2, b2))
    (htr : transport st.method st.url st.headers st.body = Except.ok res) :
    (Headers.get res.headers "Location" = Option.none →
      redirectLoop policy join transport (fuel + 1) st = some (Except.ok res)) ∧
    (∀ locStr, Headers.get res.headers "Location" = some locStr →
      join st.url locStr = Option.none →
      redirectLoop policy join transport (fuel + 1) st = some (Except.ok res)) := by
  constructor
  · intro hloc
    simp [redirectLoop, htr, sendStep, hclass, hloc]
  · intro locStr hloc hjoin
    simp [redirectLoop, htr, sendStep, hclass, hloc, hjoin]

/-- Witness for C5: a 301 without Location, and a 301 whose Location fails to
join, both terminate with the original response. -/
theorem C5_unusable_location_witness :
    redirectLoop (Policy.Limit 10) joinAll w5tr 1 w5st = some (Except.ok w5res) ∧
    redirectLoop (Policy.Limit 10) joinFail w5trBad 1 w5st = some (Except.ok w5resBad) :=
  ⟨(C5_unusable_location (Policy.Limit 10) joinAll w5tr 0 w5st w5res Method.Get
      Option.none rfl rfl).1 rfl,
   (C5_unusable_location (Policy.Limit 10) joinFail w5trBad 0 w5st w5resBad Method.Get
      Option.none rfl rfl).2 "::bad::" (by decide) rfl⟩

/-- C6 counterexample: under the default policy `Limit(10)` and a server
chain of 11 successive redirects, `send` fails with a TooManyRedirects error
carrying "u9", the URL of the 10th response — not "u10", the URL of the 11th
response as the claim states; the 11th response is never requested. -/
theorem C6_counterexample :
    redirectLoop RedirectPolicy.default joinAll chainTransport 15 chainSt0 =
      some (Except.error (error.too_many_redirects "u9")) ∧
    redirectLoop RedirectPolicy.default joinAll chainTransport 15 chainSt0 ≠
      some (Except.error (error.too_many_redirects "u10")) := by
  exact ⟨by decide, by decide⟩

/-- C6 amended: under the default policy `Limit(10)`, for a server chain of 11
successive redirects, the 10th redirect decision (whose visited history holds
the ten URLs u0–u9) yields TooManyRedirects, and `send` returns a
TooManyRedirects error carrying the URL of the 10th response, "u9". -/
theorem C6_amended_tenth_decision :
    check_redirect RedirectPolicy.default "u10"
      ["u0", "u1", "u2", "u3", "u4", "u5", "u6", "u7", "u8", "u9"] =
        Action.TooManyRedirects ∧
    chainTransport Method.Get "u9" [] Option.none =
      Except.ok ⟨302, [("Location", "u10")], "u9"⟩ ∧
    redirectLoop RedirectPolicy.default joinAll chainTransport 15 chainSt0 =
      some (Except.error (error.too_many_redirects "u9")) := by
  exact ⟨by decide, by decide, by decide⟩

/-- C7: `header` and `headers` merge into the existing collection with
multimap semantics: both append, so a later call with the same key removes no
earlier value and insertion order of same-key duplicates is preserved. -/
theorem C7_header_multimap (rb : RequestBuilder) (name value : String) (hs : Headers) :
    (rb.header name value).headers = rb.headers ++ [(name, value)] ∧
    (rb.addHeaders hs).headers = rb.headers ++ hs :=
  ⟨rfl, rfl⟩

/-- C8: whenever the engine follows a hop (re-enters the sending state), the
only header change it makes is appending a Referer entry equal to the current
URL's string form; every previously present header entry is kept untouched. -/
theorem C8_referer_only (policy : Policy) (join : Url → String → Option Url)
    (st st2 : SendState) (res : HttpResponse)
    (h : sendStep policy join st res = StepOutcome.next st2) :
    st2.headers = st.headers ++ [("Referer", st.url)] ∧
    ("Referer", st.url) ∈ st2.headers := by
  have heq : st2.headers = st.headers ++ [("Referer", st.url)] := by
    unfold sendStep at h
    repeat' split at h
    all_goals first
      | exact StepOutcome.noConfusion h
      | (cases h; rfl)
  exact ⟨heq, by rw [heq]; simp⟩

/-- Witness for C8 at a concrete followed hop. -/
theorem C8_referer_only_witness :
    ((⟨Method.Get, "u1", [("accept", "x"), ("Referer", "u0")], Option.none,
        ["u0"]⟩ : SendState).headers = [("accept", "x")] ++ [("Referer", "u0")]) ∧
    (("Referer", "u0") ∈ ([("accept", "x"), ("Referer", "u0")] : Headers)) :=
  C8_referer_only (Policy.Limit 10) joinAll w8st
    ⟨Method.Get, "u1", [("accept", "x"), ("Referer", "u0")], Option.none, ["u0"]⟩
    ⟨302, [("Location", "u1")], "u0"⟩ (by decide)

/-- C9: `form` sets Content-Type to application/x-www-form-urlencoded and
stores the URL-encoding result (success or error) in the body slot; the
builder call itself does not fail, and an encoding error is surfaced only when
`send` runs, which then returns exactly that encoding error. -/
theorem C9_form_deferred_error (rb : RequestBuilder) (encoded : Except String String) :
    (rb.form encoded).headers =
      Headers.set rb.headers "Content-Type" "application/x-www-form-urlencoded" ∧
    (rb.form encoded).body =
      some ((encoded.mapError
        (fun e => error.from' (ErrorKind.UrlEncoded e))).map Body.buffer) ∧
    (∀ e u gz policy join transport fuel,
      encoded = Except.error e → rb.url = Except.ok u →
      RequestBuilder.send (rb.form encoded) gz policy join transport fuel =
        some (Except.error (error.from' (ErrorKind.UrlEncoded e)))) := by
  refine ⟨rfl, rfl, ?_⟩
  intro e u gz policy join transport fuel henc hurl
  subst henc
  simp [RequestBuilder.send, RequestBuilder.form, hurl, Except.map, Except.mapError]

/-- Witness for C9: a failed encoding is stored, then surfaced by `send`. -/
theorem C9_form_deferred_error_witness :
    RequestBuilder.send (rb9.form (Except.error "boom")) true (Policy.Limit 10)
      joinAll noTransport 1 =
      some (Except.error (error.from' (ErrorKind.UrlEncoded "boom"))) :=
  (C9_form_deferred_error rb9 (Except.error "boom")).2.2 "boom" "u0" true
    (Policy.Limit 10) joinAll noTransport 1 rfl rfl

end Reqwest
